import Mathlib

/-!
Verification development for the Review-tool repository.

The client data layer (`src/lib/data-service.ts`), the week view
(`src/app/components/WeekView.tsx`), the serverless handlers
(`api/auth/login.ts`, `api/items/migrate.ts`) and the admin invite-code
generator (`src/components/AdminPage.tsx`) are embedded shallowly.

Strings keep the TypeScript semantics at the character-list level: the
built-in byte-position implementations of `trim`, `startsWith`, slicing and
case mapping are re-expressed over `String.data` so that every definition
evaluates inside the kernel.  JavaScript truthiness tests on optional values
are made explicit (`jsTruthyStr`, `jsTruthyInt`).  Timestamps
(`Date.now()`) are integers supplied explicitly as a `now` argument, and the
nondeterministic backend outcomes (batch insert failures, sign-in results,
completion-API responses, `Math.random` draws) are parameters of the
embedded functions.
-/

namespace ReviewTool

/-- Model of `String.prototype.trim`: remove whitespace from both ends
(whitespace restricted to the ASCII class `Char.isWhitespace`). -/
def jsTrim (s : String) : String :=
  ⟨((s.data.dropWhile Char.isWhitespace).reverse.dropWhile Char.isWhitespace).reverse⟩

/-- Model of `s.startsWith(pre)`. -/
def jsStartsWith (pre s : String) : Bool :=
  pre.data.isPrefixOf s.data

/-- Drop the first `n` characters of a string (used for stripping a category
tag: `content.replace(tag, '')` under a `startsWith(tag)` guard removes the
leading occurrence, i.e. the first `tag.length` characters). -/
def jsDropChars (s : String) (n : Nat) : String :=
  ⟨s.data.drop n⟩

/-- Model of `String.prototype.toLowerCase` (ASCII case mapping). -/
def jsToLower (s : String) : String :=
  ⟨s.data.map Char.toLower⟩

/-- Model of `String.prototype.toUpperCase` (ASCII case mapping). -/
def jsToUpper (s : String) : String :=
  ⟨s.data.map Char.toUpper⟩

/-- Strict lexicographic comparison of character lists by code point,
modelling the ECMAScript `<` operator on strings. -/
def strLtChars : List Char → List Char → Bool
  | [], [] => false
  | [], _ :: _ => true
  | _ :: _, [] => false
  | a :: as, b :: bs =>
    if a.val < b.val then true
    else if b.val < a.val then false
    else strLtChars as bs

/-- Model of the ECMAScript `a <= b` comparison on strings. -/
def strLe (a b : String) : Bool :=
  !(strLtChars b.data a.data)

/-- JavaScript truthiness of an optional string (`undefined` and `''` are
falsy). -/
def jsTruthyStr : Option String → Bool
  | none => false
  | some s => s != ""

/-- JavaScript truthiness of an optional number (`null` and `0` are falsy). -/
def jsTruthyInt : Option Int → Bool
  | none => false
  | some v => v != 0

/-- The `ReviewItem` record of `src/lib/data-service.ts`. -/
structure ReviewItem where
  id : String
  content : String
  date : String
  createdAt : Int
deriving DecidableEq

instance : Inhabited ReviewItem := ⟨⟨"", "", "", 0⟩⟩

/-- The guest-mode browser-local state: the `review-items` array and the
`review-user` metadata object `{ firstRecordDate }`. -/
structure LocalState where
  items : List ReviewItem
  firstRecordDate : Option Int
deriving DecidableEq

/-- The `Stats` record of `src/lib/data-service.ts`. -/
structure Stats where
  totalDays : Nat
  totalItems : Nat
  firstRecordDate : Option Int
deriving DecidableEq

/-- Guest branch of `DataService.getItems`: when both bounds are truthy,
filter the local array by `item.date >= startDate && item.date <= endDate`
(string comparison); otherwise return the full local array. -/
def getItemsGuest (items : List ReviewItem) (startDate endDate : Option String) :
    List ReviewItem :=
  if jsTruthyStr startDate && jsTruthyStr endDate then
    items.filter (fun it =>
      strLe (startDate.getD "") it.date && strLe it.date (endDate.getD ""))
  else
    items

/-- Result of the guest branch of `DataService.addItem`: the updated local
state and the returned item. -/
structure AddItemResult where
  state : LocalState
  item : ReviewItem
deriving DecidableEq

/-- Guest branch of `DataService.addItem`: push
`{ id: Date.now().toString(), content: content.trim(), date, createdAt: Date.now() }`
onto the local array and set `firstRecordDate` to the current time when it is
not already truthy.  `now` is the value of `Date.now()` during the call. -/
def addItem (st : LocalState) (now : Int) (content date : String) : AddItemResult :=
  let newItem : ReviewItem :=
    { id := toString now, content := jsTrim content, date := date, createdAt := now }
  let items := st.items ++ [newItem]
  let firstRecordDate :=
    if jsTruthyInt st.firstRecordDate then st.firstRecordDate else some now
  { state := { items := items, firstRecordDate := firstRecordDate }, item := newItem }

/-- Guest branch of `DataService.deleteItem`:
`items.filter(item => item.id !== id)`. -/
def deleteItemGuest (items : List ReviewItem) (id : String) : List ReviewItem :=
  items.filter (fun it => it.id != id)

/-- Guest branch of `DataService.updateItem`: `findIndex` on the id, throw
`Item not found` when absent, otherwise replace the found entry with
`{ ...old, content: content.trim(), date }` and return it.  `List.findIdx`
returns `items.length` exactly when `findIndex` returns `-1`. -/
def updateItemGuest (items : List ReviewItem) (id content date : String) :
    Except String (List ReviewItem × ReviewItem) :=
  let i := items.findIdx (fun it => it.id == id)
  if h : i < items.length then
    let old := items.get ⟨i, h⟩
    let ni : ReviewItem :=
      { id := old.id, content := jsTrim content, date := date, createdAt := old.createdAt }
    Except.ok (items.set i ni, ni)
  else
    Except.error "Item not found"

/-- Milliseconds per day, `1000 * 60 * 60 * 24`. -/
def msPerDay : Nat := 1000 * 60 * 60 * 24

/-- Model of `Math.ceil(diffTime / 86400000)` for a nonnegative integer
`diffTime`, as exact integer ceiling division. -/
def ceilDays (diffTime : Nat) : Nat :=
  (diffTime + (msPerDay - 1)) / msPerDay

/-- Guest branch of `DataService.getStats`: `totalDays` is
`Math.ceil(Math.abs(now - firstRecordDate) / 86400000)` when the stored
`firstRecordDate` is truthy, else `0`; `totalItems` is the local count. -/
def getStatsGuest (st : LocalState) (now : Int) : Stats :=
  let totalDays :=
    match st.firstRecordDate with
    | some t => if t != 0 then ceilDays ((now - t).natAbs) else 0
    | none => 0
  { totalDays := totalDays
    totalItems := st.items.length
    firstRecordDate := st.firstRecordDate }

/-- Remote branch of `DataService.getStats`, applied to the item list the API
returned: `firstRecordDate` is `Math.min` of `new Date(item.date).getTime()`
over the items (when nonempty), and `totalDays` is computed from it exactly as
in the guest branch.  `parseDate` stands for the external
`new Date(s).getTime()` conversion. -/
def getStatsRemote (items : List ReviewItem) (parseDate : String → Int) (now : Int) :
    Stats :=
  let firstRecordDate : Option Int :=
    match items.map (fun it => parseDate it.date) with
    | [] => none
    | d :: ds => some (ds.foldl min d)
  let totalDays :=
    match firstRecordDate with
    | some t => if t != 0 then ceilDays ((now - t).natAbs) else 0
    | none => 0
  { totalDays := totalDays, totalItems := items.length, firstRecordDate := firstRecordDate }

/-- The four item categories of `WeekView.tsx`. -/
inductive Category
  | basic
  | energy
  | create
  | other
deriving DecidableEq

/-- The `order` field of `CATEGORY_CONFIG` in `WeekView.tsx`. -/
def categoryOrder : Category → Nat
  | .basic => 1
  | .energy => 2
  | .create => 3
  | .other => 4

/-- The function `parseItemCategory` of `WeekView.tsx`: the three recognized
tags are four characters long and are stripped (and the remainder trimmed);
unrecognized content is `other` with the content unchanged. -/
def parseItemCategory (content : String) : Category × String :=
  if jsStartsWith "【基础】" content then (.basic, jsTrim (jsDropChars content 4))
  else if jsStartsWith "【蓄能】" content then (.energy, jsTrim (jsDropChars content 4))
  else if jsStartsWith "【创造】" content then (.create, jsTrim (jsDropChars content 4))
  else (.other, content)

/-- Category order of an item, `CATEGORY_CONFIG[parseItemCategory(content).category].order`. -/
def itemCategoryOrder (it : ReviewItem) : Nat :=
  categoryOrder (parseItemCategory it.content).1

/-- The comparator of `getItemsForDate` in `WeekView.tsx` as a total
preorder: ascending category order first, then ascending `createdAt`. -/
def itemLeB (a b : ReviewItem) : Bool :=
  itemCategoryOrder a < itemCategoryOrder b ||
    (itemCategoryOrder a == itemCategoryOrder b && a.createdAt ≤ b.createdAt)

/-- Propositional form of the `getItemsForDate` comparator. -/
def itemRel (a b : ReviewItem) : Prop :=
  itemLeB a b = true

instance : DecidableRel itemRel :=
  fun a b => instDecidableEqBool (itemLeB a b) true

instance : IsTotal ReviewItem itemRel := by
  constructor
  intro a b
  simp only [itemRel, itemLeB, Bool.or_eq_true, Bool.and_eq_true, decide_eq_true_eq, beq_iff_eq]
  omega

instance : IsTrans ReviewItem itemRel := by
  constructor
  intro a b c hab hbc
  simp only [itemRel, itemLeB, Bool.or_eq_true, Bool.and_eq_true, decide_eq_true_eq,
    beq_iff_eq] at hab hbc ⊢
  omega

/-- The function `getItemsForDate` of `WeekView.tsx`: filter the loaded items
to the given day (the `isSameDay(parseISO(item.date), date)` test on ISO day
strings is day-string equality) and sort with the category/creation-time
comparator.  `Array.prototype.sort` returns a sorted permutation; it is
modelled by insertion sort. -/
def getItemsForDate (items : List ReviewItem) (dateStr : String) : List ReviewItem :=
  List.insertionSort itemRel (items.filter (fun it => it.date == dateStr))

/-- Period type of a report, the TypeScript union `'week' | 'month'`. -/
inductive PeriodType
  | week
  | month
deriving DecidableEq

/-- The function `DataService.getMockReport`, the deterministic fallback
template parameterized only by period type, date range and item count. -/
def getMockReport (type : PeriodType) (startDate endDate : String) (itemCount : Nat) :
    String :=
  "## 整体总结\n\n在这个" ++
    (match type with | .week => "周" | .month => "月") ++
    "（" ++ startDate ++ " 至 " ++ endDate ++ "），你共记录了 " ++
    toString itemCount ++ " 条事项。" ++
    (if itemCount > 0 then "保持记录的习惯是成长的第一步！"
     else "暂无记录，开始记录你的第一条事项吧！") ++
    "\n\n## 主要亮点\n\n- " ++
    (if itemCount > 0 then "坚持记录的习惯值得肯定" else "即将开始你的记录之旅") ++
    "\n- 每一次记录都是对自己的反思\n- 持续积累将带来质的飞跃\n\n" ++
    "## 需要关注\n\n- 建议增加记录的详细程度\n- 可以尝试分类记录不同领域的事项\n" ++
    "- 保持每日记录的连续性\n\n## 下一步建议\n\n1. **保持习惯**：继续坚持每日记录\n" ++
    "2. **深入思考**：在记录时多思考原因和改进方向\n3. **定期复盘**：养成定期回顾的习惯\n" ++
    "4. **设定目标**：为下个周期设定具体的小目标\n\n> 复盘是成长的重要环节，继续加油！\n\n" ++
    "---\n\n*提示：配置 Kimi API 后可获得更智能的 AI 分析*"

/-- The function `generateMockReport` of the `/api/review/generate` handler
(bundled as the third document of `src/src/components/AdminPage.tsx`): the
server-side deterministic fallback template, parameterized only by period
type and date range (no item count, no trailing Kimi hint line). -/
def generateMockReport (type : PeriodType) (startDate endDate : String) : String :=
  "## 整体总结\n\n在这个" ++
    (match type with | .week => "周" | .month => "月") ++
    "（" ++ startDate ++ " 至 " ++ endDate ++
    "），你持续记录了自己的事项。保持记录的习惯是成长的第一步！\n\n## 主要亮点\n\n" ++
    "- 坚持记录的习惯值得肯定\n- 每一次记录都是对自己的反思\n- 持续积累将带来质的飞跃\n\n" ++
    "## 需要关注\n\n- 建议增加记录的详细程度\n- 可以尝试分类记录不同领域的事项\n" ++
    "- 保持每日记录的连续性\n\n## 下一步建议\n\n1. **保持习惯**：继续坚持每日记录\n" ++
    "2. **深入思考**：在记录时多思考原因和改进方向\n3. **定期复盘**：养成定期回顾的习惯\n" ++
    "4. **设定目标**：为下个周期设定具体的小目标\n\n> 复盘是成长的重要环节，继续加油！"

/-- The server-side `callKimiAPI` of the `/api/review/generate` handler: a
missing API key (the env default is the empty string, falsy) returns the
mock template without calling out; otherwise a non-success response or a
thrown network error (`completion = none`) and a falsy returned completion
content all fall back to the same mock template, while truthy completion
text is returned as is.  The function never throws.  The prompt assembly
only feeds the external call and does not affect which content is
returned. -/
def serverCallKimiAPI (kimiApiKey : String) (completion : Option String)
    (type : PeriodType) (startDate endDate : String) : String :=
  if kimiApiKey == "" then generateMockReport type startDate endDate
  else
    match completion with
    | some text =>
      if text == "" then generateMockReport type startDate endDate else text
    | none => generateMockReport type startDate endDate

/-- The handler of `/api/review/generate` (third document of
`src/src/components/AdminPage.tsx`), for a POST whose `type`, `startDate`
and `endDate` are present.  A guest request (`isGuest` truthy in the body)
uses the body items directly with no auth check.  An authenticated request
requires a bearer subject (else 401), returns a cached report verbatim when
`review_reports` holds one for (user, type, start, end), and otherwise
fetches the period's items (500 on a database error) before generating.  The
returned content always comes from `serverCallKimiAPI`; the best-effort
cache insert afterwards does not change the response.  `none` models a
non-2xx response. -/
def reviewGenerateHandler (isGuestReq : Bool) (hasUserId : Bool)
    (cachedReport : Option String) (itemsFetchOk : Bool) (kimiApiKey : String)
    (completion : Option String) (type : PeriodType) (startDate endDate : String) :
    Option String :=
  if !isGuestReq then
    if !hasUserId then none
    else
      match cachedReport with
      | some content => some content
      | none =>
        if !itemsFetchOk then none
        else some (serverCallKimiAPI kimiApiKey completion type startDate endDate)
  else
    some (serverCallKimiAPI kimiApiKey completion type startDate endDate)

/-- Environment of a `DataService.generateReport` call: the guest flag and
backend configuration consulted by `isGuest()`, the session, whether the
fetch of the repository's own `/api/review/generate` endpoint resolves, and
the handler's backend outcomes (server Kimi key, completion-API result,
cached report, item fetch success). -/
structure ReportEnv where
  guestFlag : Bool
  configured : Bool
  hasSession : Bool
  serverlessReachable : Bool
  kimiApiKey : String
  completion : Option String
  cachedReport : Option String
  itemsFetchOk : Bool

/-- The check `DataService.isGuest()`: guest flag set, or backend
unconfigured. -/
def isGuest (env : ReportEnv) : Bool :=
  env.guestFlag || !env.configured

/-- The method `DataService.generateReport` of `src/lib/data-service.ts`.
In the guest / unconfigured branch it posts the locally filtered items with
`isGuest: true` (so the handler skips auth, cache and item fetch) and falls
back to the client template `getMockReport` when the response is not ok or
the fetch throws.  In the authenticated branch it requires a session (whose
bearer token carries a subject, so `hasUserId` holds) and throws
`Failed to generate report` when the response is not ok or the fetch
throws. -/
def generateReport (env : ReportEnv) (type : PeriodType) (startDate endDate : String)
    (localItems : List ReviewItem) : Except String String :=
  if isGuest env || !env.configured then
    let items := getItemsGuest localItems (some startDate) (some endDate)
    if env.serverlessReachable then
      match reviewGenerateHandler true true none true env.kimiApiKey env.completion
          type startDate endDate with
      | some content => Except.ok content
      | none => Except.ok (getMockReport type startDate endDate items.length)
    else
      Except.ok (getMockReport type startDate endDate items.length)
  else if !env.hasSession then
    Except.error "Not authenticated"
  else if env.serverlessReachable then
    match reviewGenerateHandler false true env.cachedReport env.itemsFetchOk
        env.kimiApiKey env.completion type startDate endDate with
    | some content => Except.ok content
    | none => Except.error "Failed to generate report"
  else
    Except.error "Failed to generate report"

/-- The variant of `DataService.generateReport` in the second data-service
source (`src/unnamed/part_001`), applied to the items `getItems` returned:
with a truthy client-side Kimi key it calls the completion API directly and
falls back to the client template `getMockReport` on any thrown error, also
when the returned content is falsy; without a key it tries the serverless
endpoint (forwarding its `isGuest()` flag and session, modelled by
`isGuestReq`/`hasUserId`) and falls back to `getMockReport` when that is
unreachable or responds non-ok. -/
def generateReportV2 (items : List ReviewItem) (clientKimiKey : Option String)
    (completion : Option String) (serverlessReachable : Bool) (isGuestReq : Bool)
    (hasUserId : Bool) (cachedReport : Option String) (itemsFetchOk : Bool)
    (serverKimiApiKey : String) (type : PeriodType) (startDate endDate : String) :
    Except String String :=
  if jsTruthyStr clientKimiKey then
    match completion with
    | some text =>
      Except.ok (if text == "" then getMockReport type startDate endDate items.length else text)
    | none => Except.ok (getMockReport type startDate endDate items.length)
  else if serverlessReachable then
    match reviewGenerateHandler isGuestReq hasUserId cachedReport itemsFetchOk
        serverKimiApiKey completion type startDate endDate with
    | some content => Except.ok content
    | none => Except.ok (getMockReport type startDate endDate items.length)
  else
    Except.ok (getMockReport type startDate endDate items.length)

/-- Fuelled splitting of a list into consecutive chunks of `size`, modelling
the batch loop `for (let i = 0; i < n; i += batchSize)` with
`slice(i, i + batchSize)`.  The fuel `l.length` suffices for any positive
`size`. -/
def chunksOfAux (size : Nat) : Nat → List ReviewItem → List (List ReviewItem)
  | 0, _ => []
  | _, [] => []
  | fuel + 1, a :: l => (a :: l).take size :: chunksOfAux size fuel ((a :: l).drop size)

/-- Consecutive chunks of `size` elements (last chunk possibly shorter). -/
def chunksOf (size : Nat) (l : List ReviewItem) : List (List ReviewItem) :=
  chunksOfAux size l.length l

/-- The batch loop of `api/items/migrate.ts`: insert chunks of 100; a failed
batch is logged and skipped, a successful batch adds `batch.length` to
`insertedCount`.  `batchFails k` tells whether the backend rejects the `k`-th
batch. -/
def migrateInsertedCount (items : List ReviewItem) (batchFails : Nat → Bool) : Nat :=
  (((chunksOf 100 items).enum).filter (fun p => !batchFails p.1)).foldl
    (fun acc p => acc + p.2.length) 0

/-- Response of the migrate handler relevant to the client: HTTP status and
the reported `migratedCount`. -/
structure MigrateResp where
  status : Nat
  migratedCount : Nat
deriving DecidableEq

/-- The handler of `api/items/migrate.ts` for an authorized POST with an
items array: an empty array answers `200` with count `0`; otherwise the batch
loop runs and the handler answers `200` with `migratedCount = insertedCount`
regardless of how many batches failed. -/
def migrateHandler (items : List ReviewItem) (batchFails : Nat → Bool) : MigrateResp :=
  if items.isEmpty then
    { status := 200, migratedCount := 0 }
  else
    { status := 200, migratedCount := migrateInsertedCount items batchFails }

/-- Outcome of `DataService.migrateGuestData`: whether the local storage keys
(`review-items`, `review-user`, the guest flag) were removed, and the value
returned or the error thrown. -/
structure MigrateOutcome where
  clearedLocal : Bool
  result : Except String (Bool × Nat)

/-- The method `DataService.migrateGuestData`: empty local set answers
`{success: true, count: 0}` without a network call; without a session it
throws; otherwise it posts all local items to the migrate handler, and on an
ok response (status in 200..299) clears the local keys and returns the
reported `migratedCount`. -/
def migrateGuestData (localItems : List ReviewItem) (hasSession : Bool)
    (batchFails : Nat → Bool) : MigrateOutcome :=
  if localItems.isEmpty then
    { clearedLocal := false, result := Except.ok (true, 0) }
  else if !hasSession then
    { clearedLocal := false, result := Except.error "Not authenticated" }
  else
    let resp := migrateHandler localItems batchFails
    if 200 ≤ resp.status && resp.status < 300 then
      { clearedLocal := true, result := Except.ok (true, resp.migratedCount) }
    else
      { clearedLocal := false, result := Except.error "Failed to migrate data" }

/-- The 101 guest items of the failing migration scenario: two batches of
100 and 1 items. -/
def migrate101Items : List ReviewItem :=
  List.replicate 101 { id := "1", content := "x", date := "2024-01-01", createdAt := 0 }

/-- Backend behavior failing exactly the first of the two batches. -/
def firstBatchFails : Nat → Bool :=
  fun k => k == 0

/-- The username format test `/^[a-zA-Z0-9_]{3,20}$/` of `api/auth/login.ts`. -/
def usernameValid (s : String) : Bool :=
  3 ≤ s.data.length && s.data.length ≤ 20 &&
    s.data.all (fun c => c.isAlphanum || c == '_')

/-- Responses of the login handler. -/
inductive LoginResp
  | ok (isNewUser : Bool)
  | badRequest (msg : String)
  | serverError
  | methodNotAllowed
deriving DecidableEq

/-- A login request body (after the OPTIONS preflight). -/
structure LoginRequest where
  isPost : Bool
  username : Option String
  password : Option String
  inviteCode : Option String

/-- Backend outcomes consulted by the login handler: whether
`signInWithPassword` yields a session, whether `listUsers` errors, the emails
of the existing accounts, whether an unused invite row matches a given
upper-cased code, and whether `signUp` yields a user. -/
structure LoginEnv where
  signInOk : Bool
  listUsersFails : Bool
  userEmails : List String
  inviteValid : String → Bool
  signUpOk : Bool

/-- Result of the login handler, together with whether `supabase.auth.signUp`
was ever invoked. -/
structure LoginResult where
  resp : LoginResp
  signUpAttempted : Bool

/-- The handler of `api/auth/login.ts`: validation, sign-in attempt,
existence check, invite-code requirement and validation, then registration.
Profile creation is best-effort and does not alter the response. -/
def loginHandler (req : LoginRequest) (env : LoginEnv) : LoginResult :=
  if !req.isPost then
    { resp := .methodNotAllowed, signUpAttempted := false }
  else if !(jsTruthyStr req.username && jsTruthyStr req.password) then
    { resp := .badRequest "请输入账号名和密码", signUpAttempted := false }
  else
    let username := req.username.getD ""
    let password := req.password.getD ""
    if !usernameValid username then
      { resp := .badRequest "账号名格式不正确（3-20位字母、数字或下划线）", signUpAttempted := false }
    else if password.length < 6 then
      { resp := .badRequest "密码长度至少6位", signUpAttempted := false }
    else
      let email := jsToLower username ++ "@review.app"
      if env.signInOk then
        { resp := .ok false, signUpAttempted := false }
      else if env.listUsersFails then
        { resp := .serverError, signUpAttempted := false }
      else if env.userEmails.contains email then
        { resp := .badRequest "密码错误", signUpAttempted := false }
      else if !(jsTruthyStr req.inviteCode) then
        { resp := .badRequest "该账号不存在，请输入邀请码进行注册", signUpAttempted := false }
      else if !(env.inviteValid (jsToUpper (req.inviteCode.getD ""))) then
        { resp := .badRequest "邀请码无效或已被使用", signUpAttempted := false }
      else if !env.signUpOk then
        { resp := .badRequest "注册失败", signUpAttempted := true }
      else
        { resp := .ok true, signUpAttempted := true }

/-- The alphabet of `generateRandomCode` in `AdminPage.tsx` (32 symbols, no
`0`, `1`, `I`, `O`). -/
def randomCodeChars : List Char :=
  "ABCDEFGHJKLMNPQRSTUVWXYZ23456789".data

/-- The function `generateRandomCode` of `AdminPage.tsx`: `length` draws of
`chars.charAt(Math.floor(Math.random() * chars.length))`.  `randoms i` is the
`i`-th value of `Math.floor(Math.random() * 32)`, which always lies below
`32`; the placeholder character for an impossible out-of-range draw is not in
the alphabet. -/
def generateRandomCode (length : Nat) (randoms : Nat → Nat) : String :=
  ⟨(List.range length).map (fun i => randomCodeChars.getD (randoms i) '!')⟩

/-- Two basic-category items on the same day, created out of order (sample
data for the week-view sorting property). -/
def weekViewSample : List ReviewItem :=
  [{ id := "a", content := "【基础】洗漱", date := "2024-01-01", createdAt := 5 },
   { id := "b", content := "【基础】早读", date := "2024-01-01", createdAt := 3 }]

/-- A guest-mode report environment whose completion-API call fails
(sample data for the fallback property). -/
def guestFailedCompletionEnv : ReportEnv :=
  { guestFlag := true, configured := false, hasSession := false,
    serverlessReachable := true, kimiApiKey := "k", completion := none,
    cachedReport := none, itemsFetchOk := true }

/-- C1: the failing migration scenario evaluated on the code.  With 101
guest items (two batches) and a backend failing exactly the first batch, the
migrate handler answers HTTP 200 with `migratedCount = 1`, so the client
clears the local storage keys (`clearedLocal = true`) and reports success,
although 100 of the 101 items were never persisted.  The claim (and spec
section 4.1 / section 8) requires that local storage NOT be cleared in this
situation. -/
theorem C1_batch_failure_still_clears_local :
    (migrateGuestData migrate101Items true firstBatchFails).clearedLocal = true ∧
    (migrateGuestData migrate101Items true firstBatchFails).result = Except.ok (true, 1) ∧
    migrate101Items.length = 101 := by
  refine ⟨rfl, rfl, by decide⟩

/-- C6: in guest mode, deleting an id that is absent from the local item set
leaves the set unchanged (and raises no error, the function being total), and
deletion is idempotent. -/
theorem C6_deleteItem_noop_and_idempotent :
    ∀ (items : List ReviewItem) (id : String),
      ((∀ it ∈ items, it.id ≠ id) → deleteItemGuest items id = items) ∧
      deleteItemGuest (deleteItemGuest items id) id = deleteItemGuest items id := by
  intro items id
  constructor
  · intro h
    apply List.filter_eq_self.mpr
    intro a ha
    simpa [bne_iff_ne] using h a ha
  · simp [deleteItemGuest, List.filter_filter]

/-- Witness for C6 at a concrete item set and id. -/
theorem C6_deleteItem_witness :
    (∀ it ∈ [({ id := "1", content := "a", date := "2024-01-01", createdAt := 0 } : ReviewItem)],
        it.id ≠ "2") ∧
    deleteItemGuest [({ id := "1", content := "a", date := "2024-01-01", createdAt := 0 } : ReviewItem)] "2"
      = [({ id := "1", content := "a", date := "2024-01-01", createdAt := 0 } : ReviewItem)] :=
  ⟨by decide,
   (C6_deleteItem_noop_and_idempotent
      [({ id := "1", content := "a", date := "2024-01-01", createdAt := 0 } : ReviewItem)] "2").1
     (by decide)⟩

/-- C8: every call of `generateRandomCode(8)` yields exactly 8 characters,
all drawn from the 32-symbol alphabet, which contains none of `0`, `1`, `I`,
`O`. -/
theorem C8_generateRandomCode_alphabet :
    ∀ randoms : Nat → Nat, (∀ i, randoms i < 32) →
      (generateRandomCode 8 randoms).length = 8 ∧
      ∀ c ∈ (generateRandomCode 8 randoms).data,
        c ∈ randomCodeChars ∧ c ≠ '0' ∧ c ≠ '1' ∧ c ≠ 'I' ∧ c ≠ 'O' := by
  intro r hr
  constructor
  · simp [generateRandomCode, String.length]
  · intro c hc
    have hc' : c ∈ (List.range 8).map (fun i => randomCodeChars.getD (r i) '!') := hc
    simp only [List.mem_map, List.mem_range] at hc'
    obtain ⟨i, _, rfl⟩ := hc'
    have hlt : r i < randomCodeChars.length := by
      have h32 : randomCodeChars.length = 32 := by decide
      rw [h32]; exact hr i
    have hmem : randomCodeChars.getD (r i) '!' ∈ randomCodeChars := by
      rw [List.getD_eq_getElem _ _ hlt]
      exact List.getElem_mem hlt
    refine ⟨hmem, ?_⟩
    have hall : ∀ c ∈ randomCodeChars, c ≠ '0' ∧ c ≠ '1' ∧ c ≠ 'I' ∧ c ≠ 'O' := by decide
    exact hall _ hmem

/-- Witness for C8 with the constant draw 0. -/
theorem C8_generateRandomCode_witness :
    (∀ i : Nat, (fun _ : Nat => 0) i < 32) ∧
    (generateRandomCode 8 (fun _ => 0)).length = 8 :=
  ⟨fun _ => by show (0 : Nat) < 32; decide,
   (C8_generateRandomCode_alphabet (fun _ => 0) (fun _ => by show (0 : Nat) < 32; decide)).1⟩

/-- C9: the guest branch of `addItem` stores the trimmed content and the
unchanged date, appends exactly the created item, and stores a
whitespace-padded input not verbatim. -/
theorem C9_addItem_trims_content :
    ∀ (st : LocalState) (now : Int) (content date : String),
      (addItem st now content date).item.content = jsTrim content ∧
      (addItem st now content date).item.date = date ∧
      (addItem st now content date).state.items
        = st.items ++ [(addItem st now content date).item] ∧
      (jsTrim content ≠ content → (addItem st now content date).item.content ≠ content) := by
  intro st now content date
  exact ⟨rfl, rfl, rfl, fun h => h⟩

/-- Witness for C9 at a whitespace-padded content. -/
theorem C9_addItem_witness :
    jsTrim " 洗漱 " ≠ " 洗漱 " ∧
    (addItem ⟨[], none⟩ 1000 " 洗漱 " "2024-01-01").item.content ≠ " 洗漱 " :=
  ⟨by decide,
   (C9_addItem_trims_content ⟨[], none⟩ 1000 " 洗漱 " "2024-01-01").2.2.2 (by decide)⟩

/-- C3: in guest mode, adding a valid (trimmed) content at a date and then
fetching the items of a range covering that date yields an item whose content
and date equal the arguments and whose creation timestamp is not older than
the call time. -/
theorem C3_addItem_then_getItems :
    ∀ (st : LocalState) (now : Int) (content date s e : String),
      jsTrim content = content →
      s ≠ "" → e ≠ "" →
      strLe s date = true → strLe date e = true →
      ∃ it ∈ getItemsGuest (addItem st now content date).state.items (some s) (some e),
        it.content = content ∧ it.date = date ∧ now ≤ it.createdAt := by
  intro st now content date s e htrim hs he h1 h2
  refine ⟨(addItem st now content date).item, ?_, ?_, rfl, le_refl now⟩
  · have hcond : (jsTruthyStr (some s) && jsTruthyStr (some e)) = true := by
      simp [jsTruthyStr, bne_iff_ne, hs, he]
    unfold getItemsGuest
    rw [if_pos hcond]
    apply List.mem_filter.mpr
    constructor
    · exact List.mem_append_right _ (List.mem_singleton.mpr rfl)
    · show (strLe ((some s).getD "") (addItem st now content date).item.date &&
        strLe (addItem st now content date).item.date ((some e).getD "")) = true
      have hd : (addItem st now content date).item.date = date := rfl
      rw [hd]
      simpa using And.intro h1 h2
  · exact htrim

/-- Witness for C3 at a concrete state, content, date and range. -/
theorem C3_addItem_witness :
    jsTrim "洗漱" = "洗漱" ∧
    strLe "2024-01-01" "2024-01-02" = true ∧
    strLe "2024-01-02" "2024-01-07" = true ∧
    ∃ it ∈ getItemsGuest (addItem ⟨[], none⟩ 500 "洗漱" "2024-01-02").state.items
        (some "2024-01-01") (some "2024-01-07"),
      it.content = "洗漱" ∧ it.date = "2024-01-02" ∧ (500 : Int) ≤ it.createdAt :=
  ⟨by decide, by decide, by decide,
   C3_addItem_then_getItems ⟨[], none⟩ 500 "洗漱" "2024-01-02" "2024-01-01" "2024-01-07"
     (by decide) (by decide) (by decide) (by decide) (by decide)⟩

/-- C5: for a well-formed POST login whose initial sign-in fails and whose
user listing succeeds: an existing account terminates with the
wrong-credential 400 error and no registration attempt; a missing account
with no (truthy) invite code terminates with the needs-invite-code 400 error
and no registration attempt; and a registration attempt happens only when the
account is missing and an invite code was supplied. -/
theorem C5_login_after_failed_signin :
    ∀ (req : LoginRequest) (env : LoginEnv),
      req.isPost = true →
      jsTruthyStr req.username = true →
      jsTruthyStr req.password = true →
      usernameValid (req.username.getD "") = true →
      ¬ (req.password.getD "").length < 6 →
      env.signInOk = false →
      env.listUsersFails = false →
      (env.userEmails.contains (jsToLower (req.username.getD "") ++ "@review.app") = true →
         loginHandler req env
           = { resp := .badRequest "密码错误", signUpAttempted := false }) ∧
      (env.userEmails.contains (jsToLower (req.username.getD "") ++ "@review.app") = false →
         jsTruthyStr req.inviteCode = false →
         loginHandler req env
           = { resp := .badRequest "该账号不存在，请输入邀请码进行注册", signUpAttempted := false }) ∧
      ((loginHandler req env).signUpAttempted = true →
         env.userEmails.contains (jsToLower (req.username.getD "") ++ "@review.app") = false ∧
         jsTruthyStr req.inviteCode = true) := by
  intro req env hpost huser hpass hvalid hlen hsign hlist
  refine ⟨?_, ?_, ?_⟩
  · intro hc
    have hmem : jsToLower (req.username.getD "") ++ "@review.app" ∈ env.userEmails := by
      simpa using hc
    simp [loginHandler, hpost, huser, hpass, hvalid, hlen, hsign, hlist, hmem]
  · intro hc hinv
    have hmem : jsToLower (req.username.getD "") ++ "@review.app" ∉ env.userEmails := by
      simpa using hc
    simp [loginHandler, hpost, huser, hpass, hvalid, hlen, hsign, hlist, hmem, hinv]
  · intro hatt
    by_cases hc : env.userEmails.contains
        (jsToLower (req.username.getD "") ++ "@review.app") = true
    · exfalso
      have hmem : jsToLower (req.username.getD "") ++ "@review.app" ∈ env.userEmails := by
        simpa using hc
      simp [loginHandler, hpost, huser, hpass, hvalid, hlen, hsign, hlist, hmem] at hatt
    · have hc' : env.userEmails.contains
          (jsToLower (req.username.getD "") ++ "@review.app") = false :=
        Bool.of_not_eq_true hc
      have hmem : jsToLower (req.username.getD "") ++ "@review.app" ∉ env.userEmails := by
        simpa using hc'
      by_cases hi : jsTruthyStr req.inviteCode = true
      · exact ⟨hc', hi⟩
      · exfalso
        have hi' : jsTruthyStr req.inviteCode = false := Bool.of_not_eq_true hi
        simp [loginHandler, hpost, huser, hpass, hvalid, hlen, hsign, hlist, hmem, hi'] at hatt

/-- Witness for C5: an existing account with a wrong password. -/
theorem C5_login_witness :
    loginHandler
        { isPost := true, username := some "alice", password := some "secret1",
          inviteCode := none }
        { signInOk := false, listUsersFails := false,
          userEmails := ["alice@review.app"], inviteValid := fun _ => true,
          signUpOk := true }
      = { resp := .badRequest "密码错误", signUpAttempted := false } :=
  (C5_login_after_failed_signin
      { isPost := true, username := some "alice", password := some "secret1",
        inviteCode := none }
      { signInOk := false, listUsersFails := false,
        userEmails := ["alice@review.app"], inviteValid := fun _ => true,
        signUpOk := true }
      (by decide) (by decide) (by decide) (by decide) (by decide) (by decide)
      (by decide)).1 (by decide)

/-- C10: the guest branch of `updateItem` on an existing id rewrites exactly
the found entry, replacing only `content` (trimmed) and `date` while keeping
its `id` and `createdAt`, leaves every other position unchanged and keeps the
length; on a missing id it throws `Item not found` (producing no new state). -/
theorem C10_updateItem_frame :
    ∀ (items : List ReviewItem) (id content date : String),
      ((∀ it ∈ items, it.id ≠ id) →
         updateItemGuest items id content date = Except.error "Item not found") ∧
      ((∃ it ∈ items, it.id = id) →
         ∃ (ups : List ReviewItem × ReviewItem) (i : Nat) (hi : i < items.length),
           updateItemGuest items id content date = Except.ok ups ∧
           (items.get ⟨i, hi⟩).id = id ∧
           ups.1.length = items.length ∧
           ups.2.id = (items.get ⟨i, hi⟩).id ∧
           ups.2.createdAt = (items.get ⟨i, hi⟩).createdAt ∧
           ups.2.content = jsTrim content ∧
           ups.2.date = date ∧
           (∀ hi' : i < ups.1.length, ups.1.get ⟨i, hi'⟩ = ups.2) ∧
           (∀ j (hj : j < items.length) (hj' : j < ups.1.length),
              j ≠ i → ups.1.get ⟨j, hj'⟩ = items.get ⟨j, hj⟩)) := by
  intro items id content date
  constructor
  · intro h
    have hnot : ¬ items.findIdx (fun it => it.id == id) < items.length := by
      rw [List.findIdx_lt_length]
      rintro ⟨x, hx, hpx⟩
      exact h x hx (by simpa using hpx)
    simp only [updateItemGuest]
    rw [dif_neg hnot]
  · intro hex
    have hfd : items.findIdx (fun it => it.id == id) < items.length := by
      rw [List.findIdx_lt_length]
      obtain ⟨x, hx, hpx⟩ := hex
      exact ⟨x, hx, by simpa using hpx⟩
    refine ⟨(items.set (items.findIdx (fun it => it.id == id))
        { id := (items.get ⟨items.findIdx (fun it => it.id == id), hfd⟩).id,
          content := jsTrim content, date := date,
          createdAt := (items.get ⟨items.findIdx (fun it => it.id == id), hfd⟩).createdAt },
        { id := (items.get ⟨items.findIdx (fun it => it.id == id), hfd⟩).id,
          content := jsTrim content, date := date,
          createdAt := (items.get ⟨items.findIdx (fun it => it.id == id), hfd⟩).createdAt }),
      items.findIdx (fun it => it.id == id), hfd, ?_, ?_, ?_, rfl, rfl, rfl, rfl, ?_, ?_⟩
    · simp only [updateItemGuest]
      rw [dif_pos hfd]
    · have := @List.findIdx_getElem _ (fun it => it.id == id) items hfd
      simpa using this
    · simp
    · intro hi'
      simp
    · intro j hj hj' hne
      simp only [List.get_eq_getElem]
      exact List.getElem_set_ne (Ne.symm hne) _

/-- Witness for C10 at a one-item set with a matching id. -/
theorem C10_updateItem_witness :
    (∃ it ∈ [({ id := "1", content := "old", date := "2024-01-01", createdAt := 7 } : ReviewItem)],
       it.id = "1") ∧
    (∃ (ups : List ReviewItem × ReviewItem) (i : Nat)
        (hi : i < [({ id := "1", content := "old", date := "2024-01-01", createdAt := 7 } : ReviewItem)].length),
      updateItemGuest
          [({ id := "1", content := "old", date := "2024-01-01", createdAt := 7 } : ReviewItem)]
          "1" " 新 " "2024-02-02" = Except.ok ups ∧
      (([({ id := "1", content := "old", date := "2024-01-01", createdAt := 7 } : ReviewItem)]).get ⟨i, hi⟩).id = "1" ∧
      ups.1.length = [({ id := "1", content := "old", date := "2024-01-01", createdAt := 7 } : ReviewItem)].length ∧
      ups.2.id = (([({ id := "1", content := "old", date := "2024-01-01", createdAt := 7 } : ReviewItem)]).get ⟨i, hi⟩).id ∧
      ups.2.createdAt = (([({ id := "1", content := "old", date := "2024-01-01", createdAt := 7 } : ReviewItem)]).get ⟨i, hi⟩).createdAt ∧
      ups.2.content = jsTrim " 新 " ∧
      ups.2.date = "2024-02-02" ∧
      (∀ hi' : i < ups.1.length, ups.1.get ⟨i, hi'⟩ = ups.2) ∧
      (∀ j (hj : j < [({ id := "1", content := "old", date := "2024-01-01", createdAt := 7 } : ReviewItem)].length)
          (hj' : j < ups.1.length), j ≠ i →
         ups.1.get ⟨j, hj'⟩
           = ([({ id := "1", content := "old", date := "2024-01-01", createdAt := 7 } : ReviewItem)]).get ⟨j, hj⟩)) :=
  ⟨by decide,
   (C10_updateItem_frame
      [({ id := "1", content := "old", date := "2024-01-01", createdAt := 7 } : ReviewItem)]
      "1" " 新 " "2024-02-02").2 (by decide)⟩

/-- Every category order of `CATEGORY_CONFIG` is at least 1. -/
theorem one_le_categoryOrder (c : Category) : 1 ≤ categoryOrder c := by
  cases c <;> simp [categoryOrder]

/-- Category order 1 characterizes the basic category. -/
theorem categoryOrder_eq_one_iff (c : Category) :
    categoryOrder c = 1 ↔ c = Category.basic := by
  cases c <;> simp [categoryOrder]

/-- The comparator relation holds between any two positions of the list
`getItemsForDate` returns, in index order. -/
theorem getItemsForDate_pairwise (items : List ReviewItem) (d : String) :
    ∀ i j : Nat, i < j → ∀ hj : j < (getItemsForDate items d).length,
      itemRel ((getItemsForDate items d).getD i default)
        ((getItemsForDate items d).getD j default) := by
  intro i j hij hj
  have hi : i < (getItemsForDate items d).length := lt_trans hij hj
  have hs : List.Sorted itemRel (getItemsForDate items d) :=
    List.sorted_insertionSort itemRel _
  have hp := List.pairwise_iff_get.mp hs ⟨i, hi⟩ ⟨j, hj⟩ hij
  rw [List.getD_eq_getElem _ _ hi, List.getD_eq_getElem _ _ hj]
  simpa using hp

/-- C4: category is derived purely from the content tag (`【基础】` parses to
basic with the tag stripped, untagged content parses to other unchanged), and
in a day's sorted list no basic item ever follows an item of another category
(equivalently: everything placed before a basic item is itself basic), while
items of equal category are ordered by ascending creation time. -/
theorem C4_category_parse_and_sort :
    parseItemCategory "【基础】洗漱" = (Category.basic, "洗漱") ∧
    parseItemCategory "随便写的" = (Category.other, "随便写的") ∧
    (∀ (items : List ReviewItem) (d : String) (i j : Nat), i < j →
       ∀ _hj : j < (getItemsForDate items d).length,
       (parseItemCategory ((getItemsForDate items d).getD j default).content).1
         = Category.basic →
       (parseItemCategory ((getItemsForDate items d).getD i default).content).1
         = Category.basic) ∧
    (∀ (items : List ReviewItem) (d : String) (i j : Nat), i < j →
       ∀ _hj : j < (getItemsForDate items d).length,
       (parseItemCategory ((getItemsForDate items d).getD i default).content).1
         = (parseItemCategory ((getItemsForDate items d).getD j default).content).1 →
       ((getItemsForDate items d).getD i default).createdAt
         ≤ ((getItemsForDate items d).getD j default).createdAt) := by
  refine ⟨by decide, by decide, ?_, ?_⟩
  · intro items d i j hij hj hbasic
    have hrel := getItemsForDate_pairwise items d i j hij hj
    rw [itemRel, itemLeB, Bool.or_eq_true, Bool.and_eq_true] at hrel
    have hordj : itemCategoryOrder ((getItemsForDate items d).getD j default) = 1 := by
      rw [itemCategoryOrder, hbasic]
      rfl
    have hpos := one_le_categoryOrder
      (parseItemCategory ((getItemsForDate items d).getD i default).content).1
    rw [← categoryOrder_eq_one_iff]
    rcases hrel with h | ⟨h1, _⟩
    · rw [hordj] at h
      simp only [decide_eq_true_eq, itemCategoryOrder] at h
      show categoryOrder (parseItemCategory _).1 = 1
      omega
    · rw [hordj] at h1
      simpa [itemCategoryOrder] using h1
  · intro items d i j hij hj hcat
    have hrel := getItemsForDate_pairwise items d i j hij hj
    rw [itemRel, itemLeB, Bool.or_eq_true, Bool.and_eq_true] at hrel
    have hord : itemCategoryOrder ((getItemsForDate items d).getD i default)
        = itemCategoryOrder ((getItemsForDate items d).getD j default) := by
      rw [itemCategoryOrder, itemCategoryOrder, hcat]
    rcases hrel with h | ⟨_, h2⟩
    · rw [hord] at h
      simp only [decide_eq_true_eq] at h
      omega
    · simpa using h2

/-- Witness for C4: two basic items of the same day; the position before a
basic item is basic, and equal categories are ordered by creation time. -/
theorem C4_category_sort_witness :
    (parseItemCategory ((getItemsForDate weekViewSample "2024-01-01").getD 1 default).content).1
        = Category.basic ∧
    (parseItemCategory ((getItemsForDate weekViewSample "2024-01-01").getD 0 default).content).1
        = Category.basic ∧
    ((getItemsForDate weekViewSample "2024-01-01").getD 0 default).createdAt
      ≤ ((getItemsForDate weekViewSample "2024-01-01").getD 1 default).createdAt :=
  ⟨by decide,
   C4_category_parse_and_sort.2.2.1 weekViewSample "2024-01-01" 0 1 (by decide) (by decide)
     (by decide),
   C4_category_parse_and_sort.2.2.2 weekViewSample "2024-01-01" 0 1 (by decide) (by decide)
     (by decide)⟩

/-- The fold of `min` over a list starting from `d` yields a member of
`d :: ds`. -/
theorem foldl_min_mem (ds : List Int) (d : Int) : ds.foldl min d ∈ d :: ds := by
  induction ds generalizing d with
  | nil => simp
  | cons a ds ih =>
    simp only [List.foldl_cons]
    rcases List.mem_cons.mp (ih (min d a)) with h | h
    · rcases min_choice d a with h' | h'
      · rw [h, h']
        exact List.mem_cons_self _ _
      · rw [h, h']
        exact List.mem_cons_of_mem _ (List.mem_cons_self _ _)
    · exact List.mem_cons_of_mem _ (List.mem_cons_of_mem _ h)

/-- Helper for the ceiling formula: the argument cast of the absolute
difference. -/
theorem natAbs_cast_of_le (now t : Int) (hle : t ≤ now) :
    (((now - t).natAbs : Nat) : ℚ) = ((now - t : Int) : ℚ) := by
  rw [Int.cast_natAbs]
  exact congrArg (fun z : Int => (z : ℚ)) (abs_of_nonneg (sub_nonneg.mpr hle))

/-- The fold of `min` over a list starting from `d` bounds every element of
`d :: ds` from below. -/
theorem foldl_min_le (ds : List Int) (d : Int) :
    ∀ x ∈ d :: ds, ds.foldl min d ≤ x := by
  induction ds generalizing d with
  | nil =>
    intro x hx
    simp only [List.mem_singleton] at hx
    simp [hx]
  | cons a ds ih =>
    intro x hx
    simp only [List.foldl_cons]
    rcases List.mem_cons.mp hx with hxd | hx'
    · rw [hxd]
      exact le_trans (ih (min d a) _ (List.mem_cons_self _ _)) (min_le_left _ _)
    · rcases List.mem_cons.mp hx' with hxa | hx''
      · rw [hxa]
        exact le_trans (ih (min d a) _ (List.mem_cons_self _ _)) (min_le_right _ _)
      · exact ih (min d a) _ (List.mem_cons_of_mem _ hx'')

/-- The integer ceiling division performed by `ceilDays` agrees with the
rational ceiling of the exact quotient. -/
theorem ceilDays_eq_ceil (dt : Nat) :
    (ceilDays dt : Int) = ⌈(dt : ℚ) / 86400000⌉ := by
  have hb : (0 : ℚ) < 86400000 := by norm_num
  have hdiv : dt ≤ ceilDays dt * 86400000 ∧ ceilDays dt * 86400000 < dt + 86400000 := by
    unfold ceilDays msPerDay
    omega
  symm
  rw [Int.ceil_eq_iff]
  constructor
  · rw [lt_div_iff hb]
    have h2 : (ceilDays dt : ℚ) * 86400000 < (dt : ℚ) + 86400000 := by
      exact_mod_cast hdiv.2
    push_cast
    nlinarith
  · rw [div_le_iff hb]
    have h1 : (dt : ℚ) ≤ (ceilDays dt : ℚ) * 86400000 := by
      exact_mod_cast hdiv.1
    push_cast
    linarith

/-- The `totalDays` arithmetic shared by both stats branches, stated for a
positive first-record time not in the future. -/
theorem ceilDays_natAbs_eq (now t : Int) (ht : 0 < t) (hle : t ≤ now) :
    ((if t != 0 then ceilDays ((now - t).natAbs) else 0 : Nat) : Int)
      = ⌈((now - t : Int) : ℚ) / 86400000⌉ := by
  have hne : (t != 0) = true := by
    simp [bne_iff_ne]
    omega
  rw [if_pos hne, ceilDays_eq_ceil, natAbs_cast_of_le now t hle]

/-- C7: `getStats` reports `totalItems` as the item count in both modes; in
guest mode `totalDays` is the ceiling of (now − firstRecordDate)/86400000
when a first-record timestamp exists (and 0 when none exists), based on the
stored creation-event timestamp; in remote mode the first-record value is the
minimum of the parsed item dates and `totalDays` is the same ceiling formula
applied to it. -/
theorem C7_getStats_two_definitions :
    (∀ (st : LocalState) (now : Int), (getStatsGuest st now).totalItems = st.items.length) ∧
    (∀ (st : LocalState) (now t : Int), st.firstRecordDate = some t → 0 < t → t ≤ now →
       ((getStatsGuest st now).totalDays : Int) = ⌈((now - t : Int) : ℚ) / 86400000⌉) ∧
    (∀ (st : LocalState) (now : Int), st.firstRecordDate = none →
       (getStatsGuest st now).totalDays = 0) ∧
    (∀ (items : List ReviewItem) (parseDate : String → Int) (now : Int),
       (getStatsRemote items parseDate now).totalItems = items.length) ∧
    (∀ (items : List ReviewItem) (parseDate : String → Int) (now : Int), items ≠ [] →
       ∃ t, (getStatsRemote items parseDate now).firstRecordDate = some t ∧
         t ∈ items.map (fun it => parseDate it.date) ∧
         (∀ d ∈ items.map (fun it => parseDate it.date), t ≤ d) ∧
         (0 < t → t ≤ now →
            ((getStatsRemote items parseDate now).totalDays : Int)
              = ⌈((now - t : Int) : ℚ) / 86400000⌉)) := by
  refine ⟨fun st now => rfl, ?_, ?_, fun items pd now => rfl, ?_⟩
  · intro st now t hf ht hle
    show ((match st.firstRecordDate with
      | some t => if t != 0 then ceilDays ((now - t).natAbs) else 0
      | none => 0 : Nat) : Int) = _
    rw [hf]
    exact ceilDays_natAbs_eq now t ht hle
  · intro st now hf
    show (match st.firstRecordDate with
      | some t => if t != 0 then ceilDays ((now - t).natAbs) else 0
      | none => 0) = 0
    rw [hf]
  · intro items pd now hne
    rcases hm : items.map (fun it => pd it.date) with _ | ⟨d, ds⟩
    · exact absurd (List.map_eq_nil.mp hm) hne
    · refine ⟨ds.foldl min d, ?_, ?_, ?_, ?_⟩
      · show (match items.map (fun it => pd it.date) with
          | [] => none
          | d :: ds => some (ds.foldl min d)) = _
        rw [hm]
      · rw [hm]
        exact foldl_min_mem ds d
      · rw [hm]
        exact foldl_min_le ds d
      · intro ht hle
        show ((match (match items.map (fun it => pd it.date) with
            | [] => none
            | d :: ds => some (ds.foldl min d)) with
          | some t => if t != 0 then ceilDays ((now - t).natAbs) else 0
          | none => 0 : Nat) : Int) = _
        rw [hm]
        exact ceilDays_natAbs_eq now (ds.foldl min d) ht hle

/-- Witness for C7: a concrete guest state and a concrete remote item set. -/
theorem C7_getStats_witness :
    (({ items := [], firstRecordDate := some 5 } : LocalState).firstRecordDate = some 5 ∧
     (0 : Int) < 5 ∧ (5 : Int) ≤ 100 ∧
     ((getStatsGuest { items := [], firstRecordDate := some 5 } 100).totalDays : Int)
       = ⌈((100 - 5 : Int) : ℚ) / 86400000⌉) ∧
    ([({ id := "1", content := "a", date := "2024-01-02", createdAt := 0 } : ReviewItem)] ≠ [] ∧
     ∃ t, (getStatsRemote
         [({ id := "1", content := "a", date := "2024-01-02", createdAt := 0 } : ReviewItem)]
         (fun _ => 86400000) 100000000000).firstRecordDate = some t ∧
       t ∈ [({ id := "1", content := "a", date := "2024-01-02", createdAt := 0 } : ReviewItem)].map
           (fun it => (fun _ : String => (86400000 : Int)) it.date) ∧
       (∀ d ∈ [({ id := "1", content := "a", date := "2024-01-02", createdAt := 0 } : ReviewItem)].map
           (fun it => (fun _ : String => (86400000 : Int)) it.date), t ≤ d) ∧
       (0 < t → t ≤ 100000000000 →
          ((getStatsRemote
              [({ id := "1", content := "a", date := "2024-01-02", createdAt := 0 } : ReviewItem)]
              (fun _ => 86400000) 100000000000).totalDays : Int)
            = ⌈((100000000000 - t : Int) : ℚ) / 86400000⌉)) :=
  ⟨⟨rfl, by decide, by decide,
    C7_getStats_two_definitions.2.1 { items := [], firstRecordDate := some 5 } 100 5 rfl
      (by decide) (by decide)⟩,
   ⟨by decide,
    C7_getStats_two_definitions.2.2.2.2
      [({ id := "1", content := "a", date := "2024-01-02", createdAt := 0 } : ReviewItem)]
      (fun _ => 86400000) 100000000000 (by decide)⟩⟩

/-- The server-side Kimi call falls back to the handler's mock template on a
missing API key as well as on a failed completion call. -/
theorem serverCallKimiAPI_fallback (k : String) (c : Option String) (type : PeriodType)
    (s e : String) :
    (k = "" ∨ c = none) → serverCallKimiAPI k c type s e = generateMockReport type s e := by
  intro h
  rcases h with h | h
  · simp [serverCallKimiAPI, h]
  · by_cases hk : k = "" <;> simp [serverCallKimiAPI, h, hk]

/-- C2: whenever the external completion API fails (missing server
credentials, non-success status, or a network error — `kimiApiKey = ""` or
`completion = none`), every version of `generateReport` returns rather than
throws, and the returned text is the deterministic fallback template of the
component that caught the failure: the serverless handler's
`generateMockReport` when the endpoint was reached (guest or authenticated
with a session, uncached, items fetched), the client's `getMockReport` when
the guest branch could not reach it, one of the two for the second variant,
and both templates are non-empty. -/
theorem C2_generateReport_fallback :
    (∀ (env : ReportEnv) (type : PeriodType) (s e : String) (localItems : List ReviewItem),
       (env.kimiApiKey = "" ∨ env.completion = none) →
       env.serverlessReachable = true →
       isGuest env = true →
       generateReport env type s e localItems
         = Except.ok (generateMockReport type s e)) ∧
    (∀ (env : ReportEnv) (type : PeriodType) (s e : String) (localItems : List ReviewItem),
       isGuest env = true →
       env.serverlessReachable = false →
       generateReport env type s e localItems
         = Except.ok (getMockReport type s e
             (getItemsGuest localItems (some s) (some e)).length)) ∧
    (∀ (env : ReportEnv) (type : PeriodType) (s e : String) (localItems : List ReviewItem),
       (env.kimiApiKey = "" ∨ env.completion = none) →
       env.serverlessReachable = true →
       isGuest env = false →
       env.hasSession = true →
       env.cachedReport = none →
       env.itemsFetchOk = true →
       generateReport env type s e localItems
         = Except.ok (generateMockReport type s e)) ∧
    (∀ (items : List ReviewItem) (clientKimiKey : Option String) (sr ig hu : Bool)
        (cr : Option String) (ifo : Bool) (sk : String) (type : PeriodType) (s e : String),
       jsTruthyStr clientKimiKey = true →
       generateReportV2 items clientKimiKey none sr ig hu cr ifo sk type s e
         = Except.ok (getMockReport type s e items.length)) ∧
    (∀ (items : List ReviewItem) (clientKimiKey : Option String) (sr ig hu ifo : Bool)
        (sk : String) (completion : Option String) (type : PeriodType) (s e : String),
       jsTruthyStr clientKimiKey = false →
       (sk = "" ∨ completion = none) →
       (generateReportV2 items clientKimiKey completion sr ig hu none ifo sk type s e
           = Except.ok (generateMockReport type s e) ∨
        generateReportV2 items clientKimiKey completion sr ig hu none ifo sk type s e
           = Except.ok (getMockReport type s e items.length))) ∧
    (∀ (type : PeriodType) (s e : String) (n : Nat),
       0 < (getMockReport type s e n).length ∧ 0 < (generateMockReport type s e).length) := by
  refine ⟨?_, ?_, ?_, ?_, ?_, ?_⟩
  · intro env type s e localItems hfail hserv hguest
    have hs := serverCallKimiAPI_fallback env.kimiApiKey env.completion type s e hfail
    simp [generateReport, reviewGenerateHandler, hguest, hserv, hs]
  · intro env type s e localItems hguest hserv
    simp [generateReport, hguest, hserv]
  · intro env type s e localItems hfail hserv hguest hses hcache hfetch
    have hs := serverCallKimiAPI_fallback env.kimiApiKey env.completion type s e hfail
    have hg := hguest
    simp only [isGuest, Bool.or_eq_false_iff, Bool.not_eq_true'] at hg
    simp [generateReport, reviewGenerateHandler, isGuest, hserv, hg.1, hg.2, hses, hcache,
      hfetch, hs]
  · intro items ck sr ig hu cr ifo sk type s e hk
    simp [generateReportV2, hk]
  · intro items ck sr ig hu ifo sk completion type s e hk hfail
    have hs := serverCallKimiAPI_fallback sk completion type s e hfail
    cases sr <;> cases ig <;> cases hu <;> cases ifo <;>
      simp [generateReportV2, reviewGenerateHandler, hk, hs]
  · intro type s e n
    constructor
    · have hfirst : 0 < ("## 整体总结\n\n在这个" : String).length := by decide
      simp only [getMockReport, String.length_append]
      omega
    · have hfirst : 0 < ("## 整体总结\n\n在这个" : String).length := by decide
      simp only [generateMockReport, String.length_append]
      omega

/-- Witness for C2: a guest-mode environment whose completion call fails,
and the second variant with a truthy client Kimi key whose direct completion
call fails. -/
theorem C2_generateReport_witness :
    isGuest guestFailedCompletionEnv = true ∧
    guestFailedCompletionEnv.completion = none ∧
    generateReport guestFailedCompletionEnv PeriodType.week "2024-01-01" "2024-01-07" []
      = Except.ok (generateMockReport PeriodType.week "2024-01-01" "2024-01-07") ∧
    jsTruthyStr (some "k") = true ∧
    generateReportV2 [] (some "k") none true true true none true "" PeriodType.week
        "2024-01-01" "2024-01-07"
      = Except.ok (getMockReport PeriodType.week "2024-01-01" "2024-01-07" 0) :=
  ⟨rfl, rfl,
   C2_generateReport_fallback.1 guestFailedCompletionEnv
     PeriodType.week "2024-01-01" "2024-01-07" [] (Or.inr rfl) rfl rfl,
   by decide,
   C2_generateReport_fallback.2.2.2.1 [] (some "k") true true true none true ""
     PeriodType.week "2024-01-01" "2024-01-07" (by decide)⟩

end ReviewTool
